import Mathlib

/-!
Verification of the fragment-annotation pipeline in `DB_fill/main.py`.

The Python source is shallowly embedded below: pure helpers become Lean
functions; database writes become explicit state passing over lists of
rows; Python exceptions (`KeyError`, `IndexError`, SQL duplicate-key
errors, `ValueError` from tuple unpacking) become an `Except Err` result.
External collaborators (the NCBI taxonomy source and the SQL store) are
modelled as explicit function parameters, as the spec treats them as
black boxes.
-/

namespace DBFill

/-- Failure modes of the embedded code: Python `KeyError`, `IndexError`,
`ValueError` (failed tuple unpacking), and the SQL duplicate-key error
raised by a plain `insert` hitting an existing unique key. -/
inductive Err where
  | keyError
  | indexError
  | valueError
  | duplicateKey
deriving DecidableEq, Repr

/-! ## `title_parse` (main.py lines 55-79) -/

/-- `title.split('[', 1)` in Python: split at the FIRST occurrence of the
separator.  Returns `none` when the separator does not occur (Python then
returns a one-element list, so the two-variable tuple unpacking on
main.py line 64 raises `ValueError`). -/
def splitFirstAux (sep : Char) : List Char → Option (List Char × List Char)
  | [] => none
  | c :: rest =>
    if c = sep then some ([], rest)
    else (splitFirstAux sep rest).map (fun p => (c :: p.1, p.2))

/-- The bracket-balance scan of main.py lines 67-77: walk the characters,
counting `[` as +1 and `]` as -1; when the running count first reaches -1
return the prefix strictly before that character.  Returns `none` when the
count never reaches -1 (Python leaves `organism_name = None`). -/
def scanOrganism : List Char → Int → Option (List Char)
  | [], _ => none
  | c :: rest, count =>
    let count2 := if c = '[' then count + 1 else if c = ']' then count - 1 else count
    if count2 = -1 then some []
    else (scanOrganism rest count2).map (fun pre => c :: pre)

/-- Python's `str.strip()`: remove whitespace from both ends. -/
def pyStrip (cs : List Char) : List Char :=
  ((cs.dropWhile Char.isWhitespace).reverse.dropWhile Char.isWhitespace).reverse

/-- `title_parse` (main.py lines 55-79).  Returns `none` when the title
contains no `[` (the unpacking of `title.split('[', 1)` raises
`ValueError`); otherwise the stripped text before the first `[` paired
with the organism name delivered by the bracket-balance scan (which is
`none` when no unmatched `]` exists). -/
def title_parse (title : String) : Option (String × Option String) :=
  match splitFirstAux '[' title.data with
  | none => none
  | some (pre, post) =>
    some (String.mk (pyStrip pre), (scanOrganism post 0).map String.mk)

/-! ## The `qblast` call of `processing` (main.py lines 242-247) -/

/-- Two's-complement bitwise xor on unbounded integers: the meaning of
Python's `^` operator on `int` operands. -/
def pyXor : Int → Int → Int
  | .ofNat a, .ofNat b => .ofNat (Nat.xor a b)
  | .ofNat a, .negSucc b => .negSucc (Nat.xor a b)
  | .negSucc a, .ofNat b => .negSucc (Nat.xor a b)
  | .negSucc a, .negSucc b => .ofNat (Nat.xor a b)

/-- The keyword arguments of the `NCBIWWW.qblast` call. -/
structure QBlastParams where
  program : String
  database : String
  ncbi_gi : Bool
  hitlist_size : Nat
  format_type : String
  matrix_name : String
  gapcosts : String
  word_size : Nat
  entrez_query : String
  expect : Int
deriving DecidableEq, Repr

/-- The fixed search parameters submitted by `processing`
(main.py lines 240-247).  The `expect` argument is the Python expression
`10 ^ -5`, which is bitwise xor, not exponentiation. -/
def processing_qblast_params : QBlastParams :=
  { program := "blastx"
    database := "nr"
    ncbi_gi := true
    hitlist_size := 5
    format_type := "XML"
    matrix_name := "BLOSUM62"
    gapcosts := "11 1"
    word_size := 6
    entrez_query := "Procaryotae[Organism] OR Fungi[Organism]"
    expect := pyXor 10 (-5) }

/-! ## The SQL store and the taxonomy table

The relational store is an external collaborator; following the spec it is
modelled as explicit row lists with parameterized-statement semantics:
`insert ignore` silently skips a row whose unique key is present, a plain
`insert` raises a duplicate-key error on it. -/

/-- The taxonomy insert statement of `update_taxonomy` (main.py line 137).
Note the absence of an `ignore` clause. -/
def taxonomy_insert_query : String := "insert into taxonomy values(%s, %s, %s)"

/-- The fragment insert statement of `blast_results_save`
(main.py lines 185-187). -/
def fragment_insert_query : String :=
  "insert ignore into fragment(header, seq, quality) values(%s, %s, %s)"

/-- The protein insert statement of `blast_results_save` (main.py line 205). -/
def protein_insert_query : String := "insert ignore into protein values(%s, %s, %s, %s)"

/-- Whether an insert statement carries the duplicate-ignoring clause. -/
def query_has_ignore (q : String) : Bool :=
  List.isPrefixOf "insert ignore".data q.data

/-- One row of the `taxonomy` table: `taxonomy(tax_id unique, name, parent_tax_id)`. -/
structure TaxRow where
  tax_id : Nat
  name : String
  parent : Option Nat
deriving DecidableEq, Repr

/-- The unique-key column of the taxonomy table. -/
def taxIds (t : List TaxRow) : List Nat := t.map TaxRow.tax_id

/-- Executing `taxonomy_insert_query` against the store.  The statement has
no `ignore` clause, so (per the store's documented semantics) inserting a
row whose `tax_id` is already present raises a duplicate-key error;
otherwise the row is appended. -/
def insert_taxonomy_stmt (store : List TaxRow) (r : TaxRow) :
    Except Err (List TaxRow) :=
  if query_has_ignore taxonomy_insert_query then
    if r.tax_id ∈ taxIds store then .ok store else .ok (store ++ [r])
  else
    if r.tax_id ∈ taxIds store then .error .duplicateKey
    else .ok (store ++ [r])

/-! ## `update_taxonomy` (main.py lines 111-139) and
`check_lineage` (main.py lines 142-165) -/

/-- Python's `enumerate(xs, start)`: pair every element with its index. -/
def pyEnumerate (start : Nat) : List α → List (Nat × α)
  | [] => []
  | a :: as_ => (start, a) :: pyEnumerate (start + 1) as_

/-- The loop body of `update_taxonomy` (main.py lines 127-138): for each
`(pos, tax_id)` of `enumerate(lineage)`, skip ids found in the
`current_tax` snapshot; otherwise insert a row whose parent is
`lineage[pos-1]` (or null when `pos = 0`).  `tn` models
`ncbi.get_taxid_translator` as a total id-to-name map. -/
def update_taxonomy_go (tn : Nat → String) (current_tax : List Nat)
    (lineage : List Nat) : List (Nat × Nat) → List TaxRow →
    Except Err (List TaxRow)
  | [], store => .ok store
  | (pos, tax_id) :: rest, store =>
    if tax_id ∈ current_tax then
      update_taxonomy_go tn current_tax lineage rest store
    else
      let parent : Option Nat := if pos = 0 then none else lineage.get? (pos - 1)
      match insert_taxonomy_stmt store ⟨tax_id, tn tax_id, parent⟩ with
      | .error e => .error e
      | .ok store2 => update_taxonomy_go tn current_tax lineage rest store2

/-- `update_taxonomy` (main.py lines 111-139): walk `enumerate(lineage)`
and insert every id missing from the `current_tax` snapshot. -/
def update_taxonomy (tn : Nat → String) (current_tax : List Nat)
    (lineage : List Nat) (store : List TaxRow) : Except Err (List TaxRow) :=
  update_taxonomy_go tn current_tax lineage (pyEnumerate 0 lineage) store

/-- `get_lineage` (main.py lines 31-52).  The NCBI taxonomy source is the
oracle `ts`, mapping an organism name to the full lineage returned by
`ncbi.get_lineage`; `none` models the `KeyError` raised by
`get_name_translator` for an unrecognized name (including the `None`
organism produced by `title_parse`).  The code returns `lineage[1:]`,
dropping the root. -/
def get_lineage (ts : String → Option (List Nat)) (o : Option String) :
    Option (List Nat) :=
  (o.bind ts).map (fun l => l.drop 1)

/-- `check_lineage` (main.py lines 142-165): snapshot the taxonomy ids,
fetch the organism's lineage (`KeyError` when unknown), call
`update_taxonomy` once if any lineage id is missing from the snapshot
(the code scans `reversed(lineage)` and breaks at the first missing id),
and return `lineage[-1]` (`IndexError` on an empty lineage). -/
def check_lineage (ts : String → Option (List Nat)) (tn : Nat → String)
    (store : List TaxRow) (o : Option String) :
    Except Err (Nat × List TaxRow) :=
  let tax_set := taxIds store
  match get_lineage ts o with
  | none => .error .keyError
  | some lineage =>
    let store2E :=
      if lineage.reverse.any (fun id => decide (id ∉ tax_set)) then
        update_taxonomy tn tax_set lineage store
      else
        .ok store
    match store2E with
    | .error e => .error e
    | .ok store2 =>
      match lineage.getLast? with
      | none => .error .indexError
      | some t => .ok (t, store2)

/-! ## `blast_results_save` (main.py lines 168-221) -/

/-- One row of the `fragment` table: `fragment(header unique, seq, quality)`. -/
structure FragmentRow where
  header : String
  seq : String
  quality : String
deriving DecidableEq, Repr

/-- One row of the `protein` table:
`protein(accession unique, tax_id, sequence, name)`.  The sequence column
is always written as null by `blast_results_save`. -/
structure ProteinRow where
  accession : String
  tax_id : Option Nat
  seq : Option String
  name : String
deriving DecidableEq, Repr

/-- One row of the `blast_result` table; the fragment reference is
resolved by unique-header lookup inside the insert statement
(main.py lines 210-214), recorded here as the header. -/
structure BlastRow where
  fragment_header : String
  accession : String
  score : Int
  expect : Int
  identities : Int
  positives : Int
  gaps : Int
deriving DecidableEq, Repr

/-- The dictionary produced by `extract_results` (main.py lines 82-108)
for one BLAST alignment.  The numeric hsp metrics are opaque pass-through
values, modelled as integers. -/
structure BlastRecord where
  score : Int
  expect : Int
  identities : Int
  gaps : Int
  positives : Int
  accession : String
  protein_name : String
  organism_name : Option String
  title : String
deriving DecidableEq, Repr

/-- One console diagnostic of main.py lines 199-202: the fragment header,
the attempted organism name and the hit title. -/
structure LogEntry where
  header : String
  organism : Option String
  title : String
deriving DecidableEq, Repr

/-- The database state touched by one worker, plus the console log. -/
structure DBState where
  taxonomy : List TaxRow
  fragments : List FragmentRow
  proteins : List ProteinRow
  blast_results : List BlastRow
  log : List LogEntry
deriving DecidableEq, Repr

/-- The two unconditional per-record inserts of `blast_results_save`
(main.py lines 204-221): the `insert ignore` of the protein row (skipped
when the accession is already present) and the plain insert of the
blast_result row. -/
def save_record_rows (header : String) (rec : BlastRecord) (tid : Option Nat)
    (db : DBState) : DBState :=
  { db with
    proteins :=
      if rec.accession ∈ db.proteins.map ProteinRow.accession then db.proteins
      else db.proteins ++ [⟨rec.accession, tid, none, rec.protein_name⟩]
    blast_results := db.blast_results ++
      [⟨header, rec.accession, rec.score, rec.expect, rec.identities,
        rec.positives, rec.gaps⟩] }

/-- The body of the per-alignment loop of `blast_results_save`
(main.py lines 191-221): try `check_lineage` then
`get_lineage(...)[-1]`; a `KeyError` is caught (diagnostic printed,
null taxon id); any other error propagates and aborts the fragment's
worker; finally insert the protein and blast_result rows. -/
def save_record (ts : String → Option (List Nat)) (tn : Nat → String)
    (header : String) (rec : BlastRecord) (db : DBState) :
    Except Err DBState :=
  let attempt : Except Err (Option Nat × List TaxRow) :=
    match check_lineage ts tn db.taxonomy rec.organism_name with
    | .error e => .error e
    | .ok (_, tax2) =>
      match get_lineage ts rec.organism_name with
      | none => .error .keyError
      | some lin =>
        match lin.getLast? with
        | none => .error .indexError
        | some t => .ok (some t, tax2)
  match attempt with
  | .ok (tid, tax2) => .ok (save_record_rows header rec tid { db with taxonomy := tax2 })
  | .error .keyError =>
    .ok (save_record_rows header rec none
      { db with log := db.log ++ [⟨header, rec.organism_name, rec.title⟩] })
  | .error e => .error e

/-- The per-alignment loop of `blast_results_save`: process the records in
order; the first uncaught error aborts the remaining records. -/
def save_loop (ts : String → Option (List Nat)) (tn : Nat → String)
    (header : String) : List BlastRecord → DBState → Except Err DBState
  | [], db => .ok db
  | rec :: rest, db =>
    match save_record ts tn header rec db with
    | .error e => .error e
    | .ok db2 => save_loop ts tn header rest db2

/-- `blast_results_save` (main.py lines 168-221): `insert ignore` the
fragment row, then run the per-alignment loop over the parsed records. -/
def blast_results_save (ts : String → Option (List Nat)) (tn : Nat → String)
    (fragment_data : FragmentRow) (alignments : List BlastRecord)
    (db : DBState) : Except Err DBState :=
  let db1 :=
    { db with
      fragments :=
        if fragment_data.header ∈ db.fragments.map FragmentRow.header then
          db.fragments
        else db.fragments ++ [fragment_data] }
  save_loop ts tn fragment_data.header alignments db1

/-! ## `fragment_reader` (main.py lines 255-268) and the deduplicating
branch of `create_threads` (main.py lines 290-304) -/

/-- `fragment_reader`: each `;`-separated input line yields the pair of
reads `(line[0:3], line[3:])`. -/
def fragment_reader (lines : List (List String)) :
    List (List String × List String) :=
  lines.map (fun line => (line.take 3, line.drop 3))

/-- The inner launch loop of `create_threads` with `allow_duplicates`
false: for each read in order, `read[0]` (an `IndexError` on an empty
read) is looked up in `fragment_set`; members are skipped (`continue`),
every other read gets exactly one worker launch.  Returns the reads
launched, in launch order. -/
def launch_reads (fragment_set : List String) :
    List (List String) → Except Err (List (List String))
  | [] => .ok []
  | read :: rest =>
    match read.head? with
    | none => .error .indexError
    | some h =>
      if h ∈ fragment_set then launch_reads fragment_set rest
      else (launch_reads fragment_set rest).map (fun tail => read :: tail)

/-- The reads visited by the nested dispatch loops, flattened in visit
order: both reads of each pair produced by `fragment_reader`. -/
def all_reads (lines : List (List String)) : List (List String) :=
  (fragment_reader lines).flatMap (fun p => [p.1, p.2])

/-- The `allow_duplicates = False` branch of `create_threads`
(main.py lines 290-304), given the header set already loaded from the
store: visit every read of every pair and launch the non-members. -/
def create_threads_dedup (fragment_set : List String)
    (lines : List (List String)) : Except Err (List (List String)) :=
  launch_reads fragment_set (all_reads lines)

end DBFill

namespace DBFill

/-- `splitFirstAux` finds nothing when the separator is absent. -/
theorem splitFirstAux_eq_none_of_not_mem (sep : Char) :
    ∀ cs : List Char, sep ∉ cs → splitFirstAux sep cs = none := by
  intro cs h
  induction cs with
  | nil => rfl
  | cons c rest ih =>
    have hc : ¬ c = sep := fun hcs => h (hcs ▸ List.mem_cons_self c rest)
    have hrest : sep ∉ rest := fun hm => h (List.mem_cons_of_mem c hm)
    simp [splitFirstAux, hc, ih hrest]

/-- The taxonomy insert statement has no `ignore` clause, so its execution
is a plain insert: duplicate key errors, fresh key appends. -/
theorem insert_taxonomy_stmt_eq (store : List TaxRow) (r : TaxRow) :
    insert_taxonomy_stmt store r =
      if r.tax_id ∈ taxIds store then .error .duplicateKey
      else .ok (store ++ [r]) := by
  have h : query_has_ignore taxonomy_insert_query = false := by decide
  simp [insert_taxonomy_stmt, h]

theorem taxIds_append (s t : List TaxRow) :
    taxIds (s ++ t) = taxIds s ++ taxIds t :=
  List.map_append TaxRow.tax_id s t

/-- Success and insertion-trace characterization of the `update_taxonomy`
loop: on a duplicate-free id list whose not-yet-snapshotted ids are absent
from the store, the loop succeeds and appends exactly the ids missing from
the `current_tax` snapshot, in lineage order. -/
theorem update_taxonomy_go_ok (tn : Nat → String) (ct : List Nat)
    (lineage : List Nat) :
    ∀ (l : List Nat) (n : Nat) (s : List TaxRow), l.Nodup →
      (∀ id ∈ l, id ∉ ct → id ∉ taxIds s) →
      ∃ t, update_taxonomy_go tn ct lineage (pyEnumerate n l) s = .ok (s ++ t) ∧
        taxIds t = l.filter (fun id => decide (id ∉ ct)) := by
  intro l
  induction l with
  | nil =>
    intro n s _ _
    exact ⟨[], by simp [pyEnumerate, update_taxonomy_go], by simp [taxIds]⟩
  | cons a l' ih =>
    intro n s hnd hfresh
    by_cases ha : a ∈ ct
    · obtain ⟨t, hrun, hids⟩ := ih (n + 1) s hnd.of_cons
        (fun id hid h2 => hfresh id (List.mem_cons_of_mem a hid) h2)
      refine ⟨t, ?_, ?_⟩
      · simpa [pyEnumerate, update_taxonomy_go, ha] using hrun
      · simp [hids, List.filter_cons, ha]
    · have hfr : a ∉ taxIds s := hfresh a (List.mem_cons_self a l') ha
      have hrow : insert_taxonomy_stmt s
          ⟨a, tn a, if n = 0 then none else lineage.get? (n - 1)⟩ =
          .ok (s ++ [⟨a, tn a, if n = 0 then none else lineage.get? (n - 1)⟩]) := by
        rw [insert_taxonomy_stmt_eq]
        simp [hfr]
      obtain ⟨t', hrun, hids⟩ := ih (n + 1)
        (s ++ [⟨a, tn a, if n = 0 then none else lineage.get? (n - 1)⟩])
        hnd.of_cons
        (by
          intro id hid h2
          have h3 : id ∉ taxIds s :=
            hfresh id (List.mem_cons_of_mem a hid) h2
          have h4 : id ≠ a := by
            intro heq
            exact (List.nodup_cons.mp hnd).1 (heq ▸ hid)
          rw [taxIds_append]
          simp only [List.mem_append, not_or]
          exact ⟨h3, by simp [taxIds, h4]⟩)
      refine ⟨⟨a, tn a, if n = 0 then none else lineage.get? (n - 1)⟩ :: t', ?_, ?_⟩
      · simp only [pyEnumerate, update_taxonomy_go, if_neg ha, hrow]
        rw [hrun, List.append_assoc]
        rfl
      · simp [taxIds, List.filter_cons, ha] at hids ⊢
        exact hids

/-- Parent-existence invariant of the `update_taxonomy` loop, conditional
on a successful run: starting the loop at position `n` with every
snapshotted id and every lineage id before `n` already in the store, the
final store extends the initial one by rows each of whose non-null
parents is present in the store strictly before the row itself, and each
inserted row holds a lineage id missing from the snapshot with parent
equal to the previous lineage element (null for the first element). -/
theorem update_taxonomy_go_parents (tn : Nat → String) (ct : List Nat)
    (lineage : List Nat) :
    ∀ (l : List Nat) (n : Nat) (s s' : List TaxRow),
      lineage.drop n = l →
      (∀ id ∈ ct, id ∈ taxIds s) →
      (∀ j q, j < n → lineage.get? j = some q → q ∈ taxIds s) →
      update_taxonomy_go tn ct lineage (pyEnumerate n l) s = .ok s' →
      ∃ t, s' = s ++ t ∧
        (∀ (k : Nat) (hk : k < t.length) (p : Nat),
          (t.get ⟨k, hk⟩).parent = some p → p ∈ taxIds (s ++ t.take k)) ∧
        (∀ r ∈ t, r.tax_id ∉ ct ∧ ∃ pos, lineage.get? pos = some r.tax_id ∧
          r.parent = if pos = 0 then none else lineage.get? (pos - 1)) := by
  intro l
  induction l with
  | nil =>
    intro n s s' _ _ _ hrun
    simp [pyEnumerate, update_taxonomy_go] at hrun
    exact ⟨[], by simp [hrun], by intro k hk; simp at hk, by simp⟩
  | cons a l' ih =>
    intro n s s' hdrop hsub hlin hrun
    have hlen : n < lineage.length := by
      by_contra hle
      rw [List.drop_eq_nil_iff.mpr (Nat.le_of_not_lt hle)] at hdrop
      exact List.cons_ne_nil a l' hdrop.symm
    have hget : lineage.get? n = some a := by
      have h0 : (lineage.drop n).get? 0 = some a := by rw [hdrop]; rfl
      rw [List.get?_drop] at h0
      simpa using h0
    have hdrop' : lineage.drop (n + 1) = l' := by
      have h1 : (lineage.drop n).drop 1 = l' := by rw [hdrop]; rfl
      rw [List.drop_drop] at h1
      simpa [Nat.add_comm] using h1
    by_cases ha : a ∈ ct
    · have hrun' :
          update_taxonomy_go tn ct lineage (pyEnumerate (n + 1) l') s = .ok s' := by
        simpa [pyEnumerate, update_taxonomy_go, ha] using hrun
      exact ih (n + 1) s s' hdrop' hsub
        (by
          intro j q hj hq
          rcases Nat.lt_succ_iff_lt_or_eq.mp hj with hj' | hj'
          · exact hlin j q hj' hq
          · subst hj'
            rw [hget] at hq
            exact hsub q (by injection hq with h; exact h ▸ ha))
        hrun'
    · have hstep :
          update_taxonomy_go tn ct lineage (pyEnumerate n (a :: l')) s =
            match insert_taxonomy_stmt s
                ⟨a, tn a, if n = 0 then none else lineage.get? (n - 1)⟩ with
            | .error e => .error e
            | .ok store2 =>
                update_taxonomy_go tn ct lineage (pyEnumerate (n + 1) l') store2 := by
        simp only [pyEnumerate, update_taxonomy_go, if_neg ha]
      by_cases hdup : a ∈ taxIds s
      · rw [hstep, insert_taxonomy_stmt_eq] at hrun
        rw [if_pos hdup] at hrun
        simp at hrun
      · rw [hstep, insert_taxonomy_stmt_eq] at hrun
        rw [if_neg hdup] at hrun
        have hrun' : update_taxonomy_go tn ct lineage (pyEnumerate (n + 1) l')
            (s ++ [⟨a, tn a, if n = 0 then none else lineage.get? (n - 1)⟩]) =
            .ok s' := hrun
        have hsub2 : ∀ id ∈ ct, id ∈ taxIds
            (s ++ [⟨a, tn a, if n = 0 then none else lineage.get? (n - 1)⟩]) := by
          intro id hid
          rw [taxIds_append]
          exact List.mem_append_left _ (hsub id hid)
        have hlin2 : ∀ j q, j < n + 1 → lineage.get? j = some q → q ∈ taxIds
            (s ++ [⟨a, tn a, if n = 0 then none else lineage.get? (n - 1)⟩]) := by
          intro j q hj hq
          rw [taxIds_append]
          rcases Nat.lt_succ_iff_lt_or_eq.mp hj with hj' | hj'
          · exact List.mem_append_left _ (hlin j q hj' hq)
          · subst hj'
            rw [hget] at hq
            injection hq with hq
            refine List.mem_append_right _ ?_
            simp [taxIds, hq]
        obtain ⟨t', hs', hpar', hmem'⟩ :=
          ih (n + 1) _ s' hdrop' hsub2 hlin2 hrun'
        refine ⟨⟨a, tn a, if n = 0 then none else lineage.get? (n - 1)⟩ :: t',
          ?_, ?_, ?_⟩
        · rw [hs', List.append_assoc]
          rfl
        · intro k hk p hp
          match k with
          | 0 =>
            simp only [List.get] at hp
            have hn0 : ¬ n = 0 := by
              intro h0
              rw [if_pos h0] at hp
              exact Option.noConfusion hp
            rw [if_neg hn0] at hp
            have hp' : p ∈ taxIds s :=
              hlin (n - 1) p (by omega) hp
            simpa using hp'
          | k' + 1 =>
            have hk' : k' < t'.length := by
              simpa using Nat.lt_of_succ_lt_succ hk
            have hmem := hpar' k' hk' p (by simpa using hp)
            have heq : (s ++ [(⟨a, tn a, if n = 0 then none else
                lineage.get? (n - 1)⟩ : TaxRow)]) ++ t'.take k' =
                s ++ ((⟨a, tn a, if n = 0 then none else
                lineage.get? (n - 1)⟩ : TaxRow) :: t').take (k' + 1) := by
              rw [List.append_assoc]
              rfl
            rwa [heq] at hmem
        · intro r hr
          rcases List.mem_cons.mp hr with hr' | hr'
          · subst hr'
            exact ⟨ha, n, hget, rfl⟩
          · exact hmem' r hr'

/-- Evaluation of `check_lineage` once the organism's lineage is known. -/
theorem check_lineage_eq (ts : String → Option (List Nat)) (tn : Nat → String)
    (store : List TaxRow) (o : Option String) (lineage : List Nat)
    (h : get_lineage ts o = some lineage) :
    check_lineage ts tn store o =
      match (if lineage.reverse.any (fun id => decide (id ∉ taxIds store)) then
          update_taxonomy tn (taxIds store) lineage store
        else .ok store) with
      | .error e => .error e
      | .ok store2 =>
        match lineage.getLast? with
        | none => .error .indexError
        | some t => .ok (t, store2) := by
  simp only [check_lineage, h]

/-- On nonempty reads the launch loop never raises and launches exactly
the reads whose first field is outside the already-present header set. -/
theorem launch_reads_ok (fragment_set : List String) :
    ∀ reads : List (List String), (∀ r ∈ reads, r ≠ []) →
      launch_reads fragment_set reads =
        .ok (reads.filter (fun r => decide (r.headD "" ∉ fragment_set))) := by
  intro reads h
  induction reads with
  | nil => rfl
  | cons r rest ih =>
    have hr : r ≠ [] := h r (List.mem_cons_self r rest)
    match r with
    | [] => exact absurd rfl hr
    | a :: as_ =>
      have ih' := ih (fun x hx => h x (List.mem_cons_of_mem _ hx))
      by_cases ha : a ∈ fragment_set
      · simp [launch_reads, ha, ih', List.filter_cons]
      · simp [launch_reads, ha, ih', List.filter_cons, Except.map]

end DBFill

/-- C6: For every taxon row inserted during a successful
`update_taxonomy` pass started from a snapshot `ct` whose ids are present
in the store, the row's parent (if non-null) is already in the store at
the moment of the row's insertion (it occurs strictly earlier in the
append-only row list), and every inserted row holds a lineage id missing
from the snapshot with parent equal to the previous lineage element, or
null for the first element. -/
theorem C6_update_taxonomy_parent_invariant (tn : Nat → String)
    (ct lineage : List Nat) (s s' : List DBFill.TaxRow)
    (hsub : ∀ id ∈ ct, id ∈ DBFill.taxIds s)
    (hrun : DBFill.update_taxonomy tn ct lineage s = .ok s') :
    ∃ t, s' = s ++ t ∧
      (∀ (k : Nat) (hk : k < t.length) (p : Nat),
        (t.get ⟨k, hk⟩).parent = some p → p ∈ DBFill.taxIds (s ++ t.take k)) ∧
      (∀ r ∈ t, r.tax_id ∉ ct ∧ ∃ pos, lineage.get? pos = some r.tax_id ∧
        r.parent = if pos = 0 then none else lineage.get? (pos - 1)) := by
  refine DBFill.update_taxonomy_go_parents tn ct lineage lineage 0 s s'
    (List.drop_zero lineage) hsub (fun j q hj _ => absurd hj (Nat.not_lt_zero j)) ?_
  exact hrun

/-- Witness for `C6_update_taxonomy_parent_invariant` on the lineage
`[131567, 2, 1224]` with snapshot `[131567]` over a one-row store. -/
theorem C6_update_taxonomy_parent_invariant_witness :
    (∀ id ∈ [131567], id ∈ DBFill.taxIds [⟨131567, "cellular organisms", none⟩]) ∧
    ∃ t, ([⟨131567, "cellular organisms", none⟩,
            ⟨2, "Bacteria", some 131567⟩,
            ⟨1224, "Bacteria", some 2⟩] : List DBFill.TaxRow) =
          [⟨131567, "cellular organisms", none⟩] ++ t ∧
      (∀ (k : Nat) (hk : k < t.length) (p : Nat),
        (t.get ⟨k, hk⟩).parent = some p →
          p ∈ DBFill.taxIds ([⟨131567, "cellular organisms", none⟩] ++ t.take k)) ∧
      (∀ r ∈ t, r.tax_id ∉ [131567] ∧
        ∃ pos, ([131567, 2, 1224] : List Nat).get? pos = some r.tax_id ∧
          r.parent = if pos = 0 then none
            else ([131567, 2, 1224] : List Nat).get? (pos - 1)) :=
  ⟨by decide,
   C6_update_taxonomy_parent_invariant (fun _ => "Bacteria") [131567]
     [131567, 2, 1224] [⟨131567, "cellular organisms", none⟩] _
     (by decide) rfl⟩

/-- C10: Within a single `update_taxonomy` pass over a duplicate-free
lineage, starting from a store consistent with the `current_tax` snapshot,
an insert is attempted only for lineage ids absent from the snapshot and
at most once per id, so the pass succeeds: no duplicate-key insert occurs
even though the taxonomy insert statement has no duplicate-ignore
clause. -/
theorem C10_update_taxonomy_no_duplicate_insert (tn : Nat → String)
    (ct lineage : List Nat) (s : List DBFill.TaxRow)
    (hnd : lineage.Nodup)
    (hsnap : ∀ id ∈ lineage, id ∉ ct → id ∉ DBFill.taxIds s) :
    ∃ t, DBFill.update_taxonomy tn ct lineage s = .ok (s ++ t) ∧
      DBFill.taxIds t = lineage.filter (fun id => decide (id ∉ ct)) ∧
      (DBFill.taxIds t).Nodup ∧
      ∀ id ∈ DBFill.taxIds t, id ∉ ct := by
  obtain ⟨t, hrun, hids⟩ :=
    DBFill.update_taxonomy_go_ok tn ct lineage lineage 0 s hnd hsnap
  refine ⟨t, hrun, hids, ?_, ?_⟩
  · rw [hids]
    exact hnd.filter _
  · intro id hid
    rw [hids] at hid
    simpa using (List.mem_filter.mp hid).2

/-- Witness for `C10_update_taxonomy_no_duplicate_insert` on the lineage
`[131567, 2, 1224]` with snapshot `[131567]` over a one-row store. -/
theorem C10_update_taxonomy_no_duplicate_insert_witness :
    ([131567, 2, 1224] : List Nat).Nodup ∧
    (∀ id ∈ ([131567, 2, 1224] : List Nat), id ∉ [131567] →
      id ∉ DBFill.taxIds [⟨131567, "cellular organisms", none⟩]) ∧
    ∃ t, DBFill.update_taxonomy (fun _ => "Bacteria") [131567] [131567, 2, 1224]
          [⟨131567, "cellular organisms", none⟩] =
        .ok ([⟨131567, "cellular organisms", none⟩] ++ t) ∧
      DBFill.taxIds t =
        ([131567, 2, 1224] : List Nat).filter (fun id => decide (id ∉ [131567])) ∧
      (DBFill.taxIds t).Nodup ∧
      ∀ id ∈ DBFill.taxIds t, id ∉ [131567] :=
  ⟨by decide, by decide,
   C10_update_taxonomy_no_duplicate_insert (fun _ => "Bacteria") [131567]
     [131567, 2, 1224] [⟨131567, "cellular organisms", none⟩]
     (by decide) (by decide)⟩

/-- C7: For every organism name recognized by the taxonomy source (with a
nonempty, duplicate-free lineage), running `check_lineage` twice in
sequence with no interleaved store mutation succeeds both times, returns
the same terminal taxon id both times, performs no writes on the second
run (the store returned by run two is the store produced by run one), and
introduces no duplicate taxonomy rows (a duplicate-free id column stays
duplicate-free). -/
theorem C7_check_lineage_idempotent (ts : String → Option (List Nat))
    (tn : Nat → String) (store₀ : List DBFill.TaxRow) (name : String)
    (lin0 : List Nat) (hsrc : ts name = some lin0)
    (hne : lin0.drop 1 ≠ []) (hnd : (lin0.drop 1).Nodup) :
    ∃ t store₁,
      DBFill.check_lineage ts tn store₀ (some name) = .ok (t, store₁) ∧
      DBFill.check_lineage ts tn store₁ (some name) = .ok (t, store₁) ∧
      ((DBFill.taxIds store₀).Nodup → (DBFill.taxIds store₁).Nodup) := by
  have h1 : DBFill.get_lineage ts (some name) = some (lin0.drop 1) := by
    simp [DBFill.get_lineage, hsrc]
  have hlast : (lin0.drop 1).getLast? = some ((lin0.drop 1).getLast hne) :=
    List.getLast?_eq_getLast _ hne
  by_cases hb : (lin0.drop 1).reverse.any
      (fun id => decide (id ∉ DBFill.taxIds store₀)) = true
  · obtain ⟨t, hrun, hids⟩ :=
      DBFill.update_taxonomy_go_ok tn (DBFill.taxIds store₀) (lin0.drop 1)
        (lin0.drop 1) 0 store₀ hnd (fun _ _ h2 => h2)
    have hupd : DBFill.update_taxonomy tn (DBFill.taxIds store₀) (lin0.drop 1)
        store₀ = .ok (store₀ ++ t) := hrun
    have hall : ∀ id ∈ lin0.drop 1, id ∈ DBFill.taxIds (store₀ ++ t) := by
      intro id hid
      rw [DBFill.taxIds_append]
      by_cases h2 : id ∈ DBFill.taxIds store₀
      · exact List.mem_append_left _ h2
      · refine List.mem_append_right _ ?_
        rw [hids]
        exact List.mem_filter.mpr ⟨hid, by simpa using h2⟩
    have hrun1 : DBFill.check_lineage ts tn store₀ (some name) =
        .ok ((lin0.drop 1).getLast hne, store₀ ++ t) := by
      rw [DBFill.check_lineage_eq ts tn store₀ (some name) _ h1, if_pos hb, hupd,
        hlast]
    have hany2 : (lin0.drop 1).reverse.any
        (fun id => decide (id ∉ DBFill.taxIds (store₀ ++ t))) = false := by
      rw [List.any_eq_false]
      intro x hx
      simp only [List.mem_reverse] at hx
      simpa using hall x hx
    have hrun2 : DBFill.check_lineage ts tn (store₀ ++ t) (some name) =
        .ok ((lin0.drop 1).getLast hne, store₀ ++ t) := by
      rw [DBFill.check_lineage_eq ts tn _ (some name) _ h1,
        if_neg (by rw [hany2]; exact Bool.false_ne_true), hlast]
    refine ⟨_, store₀ ++ t, hrun1, hrun2, ?_⟩
    intro hnd0
    rw [DBFill.taxIds_append, List.nodup_append]
    refine ⟨hnd0, ?_, ?_⟩
    · rw [hids]
      exact hnd.filter _
    · intro x hx1 hx2
      rw [hids] at hx2
      have h3 := (List.mem_filter.mp hx2).2
      simp at h3
      exact h3 hx1
  · have hrun1 : DBFill.check_lineage ts tn store₀ (some name) =
        .ok ((lin0.drop 1).getLast hne, store₀) := by
      rw [DBFill.check_lineage_eq ts tn store₀ (some name) _ h1, if_neg hb, hlast]
    exact ⟨_, store₀, hrun1, hrun1, fun h => h⟩

/-- Witness for `C7_check_lineage_idempotent`: the organism
"Bacillus subtilis" with lineage `[1, 131567, 2, 1386, 1423]`, starting
from an empty store. -/
theorem C7_check_lineage_idempotent_witness :
    ((fun n => if n = "Bacillus subtilis"
        then some [1, 131567, 2, 1386, 1423] else none) "Bacillus subtilis" =
      some [1, 131567, 2, 1386, 1423]) ∧
    (([1, 131567, 2, 1386, 1423] : List Nat).drop 1 ≠ []) ∧
    (([1, 131567, 2, 1386, 1423] : List Nat).drop 1).Nodup ∧
    ∃ t store₁,
      DBFill.check_lineage
          (fun n => if n = "Bacillus subtilis"
            then some [1, 131567, 2, 1386, 1423] else none)
          (fun _ => "taxon") [] (some "Bacillus subtilis") = .ok (t, store₁) ∧
      DBFill.check_lineage
          (fun n => if n = "Bacillus subtilis"
            then some [1, 131567, 2, 1386, 1423] else none)
          (fun _ => "taxon") store₁ (some "Bacillus subtilis") = .ok (t, store₁) ∧
      ((DBFill.taxIds []).Nodup → (DBFill.taxIds store₁).Nodup) :=
  ⟨by decide, by decide, by decide,
   C7_check_lineage_idempotent
     (fun n => if n = "Bacillus subtilis"
       then some [1, 131567, 2, 1386, 1423] else none)
     (fun _ => "taxon") [] "Bacillus subtilis" [1, 131567, 2, 1386, 1423]
     (by decide) (by decide) (by decide)⟩

/-- C8: For every alignment record whose organism-name lookup fails with
`KeyError` (unknown organism or missing bracketed tag), the worker logs
the fragment header, attempted organism name and hit title, proceeds with
a null taxon id, leaves the taxonomy untouched, still appends the
record's blast_result row (and its protein row, with null taxon id, when
the accession is new), and continues with the fragment's remaining
records. -/
theorem C8_unknown_organism_recovers (ts : String → Option (List Nat))
    (tn : Nat → String) (header : String) (rec : DBFill.BlastRecord)
    (rest : List DBFill.BlastRecord) (db : DBFill.DBState)
    (hfail : rec.organism_name.bind ts = none) :
    ∃ db2, DBFill.save_record ts tn header rec db = .ok db2 ∧
      db2.log = db.log ++ [⟨header, rec.organism_name, rec.title⟩] ∧
      db2.taxonomy = db.taxonomy ∧
      db2.fragments = db.fragments ∧
      db2.blast_results = db.blast_results ++
        [⟨header, rec.accession, rec.score, rec.expect, rec.identities,
          rec.positives, rec.gaps⟩] ∧
      (∃ p ∈ db2.proteins, p.accession = rec.accession) ∧
      (rec.accession ∉ db.proteins.map DBFill.ProteinRow.accession →
        db2.proteins = db.proteins ++
          [⟨rec.accession, none, none, rec.protein_name⟩]) ∧
      DBFill.save_loop ts tn header (rec :: rest) db =
        DBFill.save_loop ts tn header rest db2 := by
  have hgl : DBFill.get_lineage ts rec.organism_name = none := by
    simp [DBFill.get_lineage, hfail]
  have hcl : DBFill.check_lineage ts tn db.taxonomy rec.organism_name =
      .error .keyError := by
    simp [DBFill.check_lineage, hgl]
  have hsr : DBFill.save_record ts tn header rec db =
      .ok (DBFill.save_record_rows header rec none
        { db with log := db.log ++ [⟨header, rec.organism_name, rec.title⟩] }) := by
    simp [DBFill.save_record, hcl]
  refine ⟨_, hsr, rfl, rfl, rfl, rfl, ?_, ?_, ?_⟩
  · by_cases hacc : rec.accession ∈ db.proteins.map DBFill.ProteinRow.accession
    · obtain ⟨p, hp, hpe⟩ := List.mem_map.mp hacc
      refine ⟨p, ?_, hpe⟩
      simp [DBFill.save_record_rows, hacc, hp]
    · refine ⟨⟨rec.accession, none, none, rec.protein_name⟩, ?_, rfl⟩
      simp [DBFill.save_record_rows, hacc]
  · intro hacc
    simp [DBFill.save_record_rows, hacc]
  · simp [DBFill.save_loop, hsr]

/-- Witness for `C8_unknown_organism_recovers`: an organism name the
taxonomy source does not recognize, over the empty database. -/
theorem C8_unknown_organism_recovers_witness :
    ((some "Unknownia incognita").bind (fun _ => (none : Option (List Nat))) =
      none) ∧
    ∃ db2, DBFill.save_record (fun _ => none) (fun _ => "taxon") "frag_1"
        ⟨100, 2, 50, 0, 40, "ACC1", "hypothetical protein",
          some "Unknownia incognita", "hypothetical protein [Unknownia incognita]"⟩
        ⟨[], [], [], [], []⟩ = .ok db2 ∧
      db2.log = [] ++ [⟨"frag_1", some "Unknownia incognita",
        "hypothetical protein [Unknownia incognita]"⟩] ∧
      db2.taxonomy = [] ∧
      db2.fragments = [] ∧
      db2.blast_results = [] ++ [⟨"frag_1", "ACC1", 100, 2, 50, 40, 0⟩] ∧
      (∃ p ∈ db2.proteins, p.accession = "ACC1") ∧
      ("ACC1" ∉ List.map DBFill.ProteinRow.accession [] →
        db2.proteins = [] ++ [⟨"ACC1", none, none, "hypothetical protein"⟩]) ∧
      DBFill.save_loop (fun _ => none) (fun _ => "taxon") "frag_1"
          (⟨100, 2, 50, 0, 40, "ACC1", "hypothetical protein",
            some "Unknownia incognita",
            "hypothetical protein [Unknownia incognita]"⟩ :: [])
          ⟨[], [], [], [], []⟩ =
        DBFill.save_loop (fun _ => none) (fun _ => "taxon") "frag_1" [] db2 :=
  ⟨rfl,
   C8_unknown_organism_recovers (fun _ => none) (fun _ => "taxon") "frag_1"
     ⟨100, 2, 50, 0, 40, "ACC1", "hypothetical protein",
       some "Unknownia incognita", "hypothetical protein [Unknownia incognita]"⟩
     [] ⟨[], [], [], [], []⟩ rfl⟩

/-- C4 counterexample: a root-only organism (full NCBI lineage `[1]`, so
`get_lineage` returns the empty list) makes the worker ABORT the whole
fragment: `blast_results_save` on two records, the first of which has the
degenerate organism, returns an uncaught `IndexError` instead of logging
the record, assigning a null taxon id and processing the second record
as the claim states. -/
theorem C4_empty_lineage_counterexample :
    DBFill.blast_results_save
      (fun n => if n = "Rootonlya degenerata" then some [1] else none)
      (fun _ => "taxon") ⟨"frag_1", "ACGT", "IIII"⟩
      [⟨100, 2, 50, 0, 40, "ACC1", "protein A", some "Rootonlya degenerata",
         "protein A [Rootonlya degenerata]"⟩,
       ⟨90, 3, 40, 1, 30, "ACC2", "protein B", some "Rootonlya degenerata",
         "protein B [Rootonlya degenerata]"⟩]
      ⟨[], [], [], [], []⟩ = .error .indexError := by
  rfl

/-- C4 (amended): when lineage resolution yields a lineage of length zero,
`check_lineage` fails with an `IndexError` (from `lineage[-1]`), and the
worker does NOT recover as for `UnknownOrganism`: the `except KeyError`
handler misses it, so the error propagates out of the per-record loop and
aborts the processing of the fragment's remaining records. -/
theorem C4_empty_lineage_aborts (ts : String → Option (List Nat))
    (tn : Nat → String) (o : Option String) (lin0 : List Nat)
    (hsrc : o.bind ts = some lin0) (hempty : lin0.drop 1 = [])
    (header : String) (rec : DBFill.BlastRecord)
    (rest : List DBFill.BlastRecord) (db : DBFill.DBState)
    (horg : rec.organism_name = o) :
    DBFill.check_lineage ts tn db.taxonomy o = .error .indexError ∧
    DBFill.save_loop ts tn header (rec :: rest) db = .error .indexError := by
  have hgl : DBFill.get_lineage ts o = some [] := by
    have hempty' : lin0.tail = [] := by
      rw [← List.drop_one]
      exact hempty
    simp [DBFill.get_lineage, hsrc, hempty']
  have hcl : DBFill.check_lineage ts tn db.taxonomy o = .error .indexError := by
    rw [DBFill.check_lineage_eq ts tn db.taxonomy o [] hgl]
    rfl
  have hsr : DBFill.save_record ts tn header rec db = .error .indexError := by
    simp [DBFill.save_record, horg, hcl]
  exact ⟨hcl, by simp [DBFill.save_loop, hsr]⟩

/-- Witness for `C4_empty_lineage_aborts`: the concrete root-only
organism of the counterexample scenario. -/
theorem C4_empty_lineage_aborts_witness :
    ((some "Rootonlya degenerata").bind
        (fun n => if n = "Rootonlya degenerata" then some [1] else none) =
      some [1]) ∧
    ([1] : List Nat).drop 1 = [] ∧
    (DBFill.check_lineage
        (fun n => if n = "Rootonlya degenerata" then some [1] else none)
        (fun _ => "taxon") [] (some "Rootonlya degenerata") =
      .error .indexError ∧
    DBFill.save_loop
        (fun n => if n = "Rootonlya degenerata" then some [1] else none)
        (fun _ => "taxon") "frag_1"
        (⟨100, 2, 50, 0, 40, "ACC1", "protein A", some "Rootonlya degenerata",
           "protein A [Rootonlya degenerata]"⟩ ::
          [⟨90, 3, 40, 1, 30, "ACC2", "protein B", some "Rootonlya degenerata",
             "protein B [Rootonlya degenerata]"⟩])
        ⟨[], [], [], [], []⟩ = .error .indexError) :=
  ⟨rfl, rfl,
   C4_empty_lineage_aborts
     (fun n => if n = "Rootonlya degenerata" then some [1] else none)
     (fun _ => "taxon") (some "Rootonlya degenerata") [1] rfl rfl "frag_1"
     ⟨100, 2, 50, 0, 40, "ACC1", "protein A", some "Rootonlya degenerata",
       "protein A [Rootonlya degenerata]"⟩
     [⟨90, 3, 40, 1, 30, "ACC2", "protein B", some "Rootonlya degenerata",
        "protein B [Rootonlya degenerata]"⟩]
     ⟨[], [], [], [], []⟩ rfl⟩

/-- C9: With `allow_duplicates` false and six-field input lines, the
dispatcher launches no worker for any fragment whose header is in the set
of headers loaded from the store, and every other input fragment
occurrence gets exactly one worker launch (launch multiplicity equals
input multiplicity). -/
theorem C9_create_threads_dedup (fragment_set : List String)
    (lines : List (List String))
    (hlen : ∀ line ∈ lines, line.length = 6) :
    ∃ launched, DBFill.create_threads_dedup fragment_set lines = .ok launched ∧
      launched = (DBFill.all_reads lines).filter
        (fun r => decide (r.headD "" ∉ fragment_set)) ∧
      (∀ r ∈ DBFill.all_reads lines, r.headD "" ∈ fragment_set →
        r ∉ launched) ∧
      (∀ r : List String, r.headD "" ∉ fragment_set →
        launched.count r = (DBFill.all_reads lines).count r) := by
  have hne : ∀ r ∈ DBFill.all_reads lines, r ≠ [] := by
    intro r hr
    simp only [DBFill.all_reads, DBFill.fragment_reader, List.mem_flatMap,
      List.mem_map] at hr
    obtain ⟨p, ⟨line, hline, hp⟩, hrp⟩ := hr
    have h6 : line.length = 6 := hlen line hline
    have : r = line.take 3 ∨ r = line.drop 3 := by
      subst hp
      simpa using hrp
    rcases this with h | h <;> subst h
    · intro hnil
      have := congrArg List.length hnil
      simp [List.length_take, h6] at this
    · intro hnil
      have := congrArg List.length hnil
      simp [List.length_drop, h6] at this
  refine ⟨_, DBFill.launch_reads_ok fragment_set (DBFill.all_reads lines) hne,
    rfl, ?_, ?_⟩
  · intro r hr hmem hin
    have h2 := (List.mem_filter.mp hin).2
    exact (of_decide_eq_true h2) hmem
  · intro r hmem
    exact List.count_filter (by simpa using hmem)

/-- Witness for `C9_create_threads_dedup`: two six-field lines (four
reads), with the store already holding the headers `h1` and `h4`. -/
theorem C9_create_threads_dedup_witness :
    (∀ line ∈ [["h1", "s1", "q1", "h2", "s2", "q2"],
               ["h3", "s3", "q3", "h4", "s4", "q4"]],
      List.length line = 6) ∧
    ∃ launched, DBFill.create_threads_dedup ["h1", "h4"]
        [["h1", "s1", "q1", "h2", "s2", "q2"],
         ["h3", "s3", "q3", "h4", "s4", "q4"]] = .ok launched ∧
      launched = (DBFill.all_reads
          [["h1", "s1", "q1", "h2", "s2", "q2"],
           ["h3", "s3", "q3", "h4", "s4", "q4"]]).filter
        (fun r => decide (r.headD "" ∉ ["h1", "h4"])) ∧
      (∀ r ∈ DBFill.all_reads
          [["h1", "s1", "q1", "h2", "s2", "q2"],
           ["h3", "s3", "q3", "h4", "s4", "q4"]],
        r.headD "" ∈ ["h1", "h4"] → r ∉ launched) ∧
      (∀ r : List String, r.headD "" ∉ ["h1", "h4"] →
        launched.count r = (DBFill.all_reads
          [["h1", "s1", "q1", "h2", "s2", "q2"],
           ["h3", "s3", "q3", "h4", "s4", "q4"]]).count r) :=
  ⟨by decide,
   C9_create_threads_dedup ["h1", "h4"]
     [["h1", "s1", "q1", "h2", "s2", "q2"],
      ["h3", "s3", "q3", "h4", "s4", "q4"]] (by decide)⟩

/-- C5 counterexample: re-inserting a taxon row whose `tax_id` is already
present raises a duplicate-key error — it is NOT the silent no-op the
claim asserts, because the taxonomy insert statement has no
duplicate-ignore clause. -/
theorem C5_taxonomy_insert_counterexample :
    DBFill.insert_taxonomy_stmt [⟨562, "Escherichia coli", some 561⟩]
        ⟨562, "Escherichia coli", some 561⟩ = .error .duplicateKey ∧
    DBFill.insert_taxonomy_stmt [⟨562, "Escherichia coli", some 561⟩]
        ⟨562, "Escherichia coli", some 561⟩ ≠
      .ok [⟨562, "Escherichia coli", some 561⟩] := by
  refine ⟨rfl, ?_⟩
  intro h
  rw [show DBFill.insert_taxonomy_stmt [⟨562, "Escherichia coli", some 561⟩]
      ⟨562, "Escherichia coli", some 561⟩ =
      .error .duplicateKey from rfl] at h
  exact Except.noConfusion h

/-- C5 (amended): the taxonomy insert statement, unlike the fragment and
protein inserts, carries no ignore-duplicate clause, so inserting a taxon
row whose `tax_id` is already present in the store raises a duplicate-key
error; duplicate inserts are avoided only by `update_taxonomy`'s
missing-id guard against the `current_tax` snapshot. -/
theorem C5_taxonomy_insert_not_ignored (store : List DBFill.TaxRow)
    (r : DBFill.TaxRow) (h : r.tax_id ∈ DBFill.taxIds store) :
    DBFill.query_has_ignore DBFill.taxonomy_insert_query = false ∧
    DBFill.query_has_ignore DBFill.fragment_insert_query = true ∧
    DBFill.query_has_ignore DBFill.protein_insert_query = true ∧
    DBFill.insert_taxonomy_stmt store r = .error .duplicateKey := by
  refine ⟨by decide, by decide, by decide, ?_⟩
  rw [DBFill.insert_taxonomy_stmt_eq, if_pos h]

/-- Witness for `C5_taxonomy_insert_not_ignored` on a one-row store. -/
theorem C5_taxonomy_insert_not_ignored_witness :
    ((⟨561, "Escherichia", some 543⟩ : DBFill.TaxRow).tax_id ∈
      DBFill.taxIds [⟨561, "Escherichia", some 543⟩]) ∧
    (DBFill.query_has_ignore DBFill.taxonomy_insert_query = false ∧
    DBFill.query_has_ignore DBFill.fragment_insert_query = true ∧
    DBFill.query_has_ignore DBFill.protein_insert_query = true ∧
    DBFill.insert_taxonomy_stmt [⟨561, "Escherichia", some 543⟩]
        ⟨561, "Escherichia", some 543⟩ = .error .duplicateKey) :=
  ⟨by decide,
   C5_taxonomy_insert_not_ignored [⟨561, "Escherichia", some 543⟩]
     ⟨561, "Escherichia", some 543⟩ (by decide)⟩

/-- C1: For every fragment, the remote search request carries hit list
size 5, matrix BLOSUM62, gap costs 11/1, word size 6 — but the expect
threshold actually submitted is `10 ^ -5 = -15` (Python bitwise xor),
not the significance threshold 1e-5 the spec intends. -/
theorem C1_qblast_params_expect_bug :
    DBFill.processing_qblast_params.hitlist_size = 5 ∧
    DBFill.processing_qblast_params.matrix_name = "BLOSUM62" ∧
    DBFill.processing_qblast_params.gapcosts = "11 1" ∧
    DBFill.processing_qblast_params.word_size = 6 ∧
    DBFill.processing_qblast_params.expect = -15 ∧
    (DBFill.processing_qblast_params.expect : ℚ) ≠ 1 / 100000 := by
  refine ⟨rfl, rfl, rfl, rfl, rfl, ?_⟩
  have h : DBFill.processing_qblast_params.expect = -15 := rfl
  rw [h]
  norm_num

/-- C2 counterexample: on a title with no `[`, `title_parse` fails (the
two-variable unpacking of `title.split('[', 1)` raises `ValueError`,
embedded as `none`); it does not return the trimmed title with a null
organism as the claim states. -/
theorem C2_no_bracket_counterexample :
    DBFill.title_parse "hypothetical protein" = none ∧
    DBFill.title_parse "hypothetical protein" ≠
      some ("hypothetical protein", none) := by
  exact ⟨rfl, by decide⟩

/-- C2 (amended): for every hit title containing no `[` character, title
parsing fails (raises on unpacking), returning no parsed record at all. -/
theorem C2_no_bracket_parse_fails (title : String) (h : '[' ∉ title.data) :
    DBFill.title_parse title = none := by
  unfold DBFill.title_parse
  rw [DBFill.splitFirstAux_eq_none_of_not_mem '[' title.data h]

/-- Witness for `C2_no_bracket_parse_fails` at a concrete bracket-free title. -/
theorem C2_no_bracket_parse_fails_witness :
    '[' ∉ "ABC transporter".data ∧
      DBFill.title_parse "ABC transporter" = none :=
  ⟨by decide, C2_no_bracket_parse_fails "ABC transporter" (by decide)⟩

/-- C3 counterexample: on the nested-bracket title the organism name
produced by `title_parse` is not `"Genus species"`. -/
theorem C3_nested_bracket_counterexample :
    (DBFill.title_parse "Protein [with [nested] note] [Genus species]").map
        Prod.snd ≠ some (some "Genus species") := by
  decide

/-- C3 (amended): parsing `"Protein [with [nested] note] [Genus species]"`
yields organism name `"with [nested] note"`: the bracket-balance scanner
does not stop at the first `]` (which closes `[nested]`), but it stops at
the first unmatched `]` — the one closing the first top-level group — and
therefore never reaches the trailing `[Genus species]` tag. -/
theorem C3_nested_bracket_parse :
    DBFill.title_parse "Protein [with [nested] note] [Genus species]" =
      some ("Protein", some "with [nested] note") := by
  decide
